import Mathlib

/-!
Shallow embedding of the income-projection core of `src/main.py`
(skill-boost-sim): `calculate_annual_income` (lines 10-82) and
`calculate_cumulative_income` (lines 84-90), together with theorems that
settle the specification claims about them.

Numbers are modelled as real numbers (the Python code computes with
floats; the spec speaks of reals).  The post-target wage uses a real
power `(1 + rate) ** years_after` with a possibly fractional exponent,
modelled by `Real.rpow` (the `^` on two reals below).
-/

namespace SkillBoostSim

/-- The parameter record read by `calculate_annual_income` (src/main.py
lines 15-34).  One field per dictionary key the function reads, plus
`deduction_rate_employee`, which is present in the program's default
parameter table (line 164) but never read by the projection. -/
structure Params where
  age_start : ℤ
  age_end : ℤ
  office_initial_monthly_net_salary : ℝ
  office_bonus_months : ℝ
  office_raise_rate : ℝ
  freelance_learning_period_months : ℝ
  freelance_initial_hourly_wage : ℝ
  freelance_target_hourly_wage : ℝ
  freelance_target_reach_years : ℝ
  freelance_hourly_wage_growth_type : String
  freelance_post_target_raise_rate : ℝ
  freelance_work_hours_per_day : ℝ
  freelance_work_days_per_month : ℝ
  freelance_expense_rate : ℝ
  deduction_rate_freelance : ℝ
  deduction_rate_employee : ℝ

/-- The error type named by the spec's error-handling design.  The source
code defines no such exception and `calculate_annual_income` contains no
raise statement; the type exists so the spec's claim "raises
ConfigurationError" can be stated about the embedding, whose result is
wrapped in `Except`. -/
inductive ConfigurationError where
  | mk (msg : String)

/-- Number of simulated years: `len(np.arange(age_start, age_end + 1))`
(src/main.py lines 37-38), which is `max 0 (age_end + 1 - age_start)`. -/
def num_years (p : Params) : ℕ := (p.age_end + 1 - p.age_start).toNat

/-- The years array `np.arange(age_start, age_end + 1)` (line 37). -/
def years_array (p : Params) : List ℤ :=
  (List.range (num_years p)).map (fun i : ℕ => p.age_start + (i : ℤ))

/-- The running office monthly salary: `current_monthly_salary` at the
start of loop iteration `i` (lines 45-50): it starts at
`office_initial_monthly_net_salary` and is multiplied by
`(1 + office_raise_rate)` once per completed iteration. -/
def office_monthly_salary (p : Params) : ℕ → ℝ
  | 0 => p.office_initial_monthly_net_salary
  | i + 1 => office_monthly_salary p i * (1 + p.office_raise_rate)

/-- `income_office[i] = current_monthly_salary * (12 + office_bonus_months)`
(line 48). -/
def income_office (p : Params) (i : ℕ) : ℝ :=
  office_monthly_salary p i * (12 + p.office_bonus_months)

/-- The hourly wage computed at lines 65-71 for a given `work_years`
(the spec's `WageCurve.wage`).  The code inlines it inside the freelance
loop; it depends only on `work_years` and the wage parameters. -/
noncomputable def WageCurve.wage (p : Params) (work_years : ℝ) : ℝ :=
  if work_years ≤ p.freelance_target_reach_years then
    -- ratio = (work_years / fl_target_years) ** 2 if fl_target_years > 0 else 1.0
    let r := if 0 < p.freelance_target_reach_years then
        (work_years / p.freelance_target_reach_years) ^ 2 else 1
    p.freelance_initial_hourly_wage +
      (p.freelance_target_hourly_wage - p.freelance_initial_hourly_wage) * r
  else
    let years_after_target := work_years - p.freelance_target_reach_years
    p.freelance_target_hourly_wage *
      (1 + p.freelance_post_target_raise_rate) ^ years_after_target

/-- Freelance loop body for index `i` (lines 53-80): zero inside the
learning period (`i < np.ceil(learning_period_years)`), otherwise the net
income derived from the hourly wage at
`work_years = i - learning_period_years`. -/
noncomputable def income_freelance (p : Params) (i : ℕ) : ℝ :=
  let learning_period_years := p.freelance_learning_period_months / 12
  if (i : ℝ) < (⌈learning_period_years⌉ : ℝ) then 0
  else
    let work_years := (i : ℝ) - learning_period_years
    let current_hourly_wage := WageCurve.wage p work_years
    let annual_gross := current_hourly_wage * p.freelance_work_hours_per_day *
      p.freelance_work_days_per_month * 12
    let taxable_income := annual_gross * (1 - p.freelance_expense_rate)
    taxable_income * (1 - p.deduction_rate_freelance)

/-- The office income series returned by `calculate_annual_income`. -/
def income_office_series (p : Params) : List ℝ :=
  (List.range (num_years p)).map (income_office p)

/-- The freelance income series returned by `calculate_annual_income`. -/
noncomputable def income_freelance_series (p : Params) : List ℝ :=
  (List.range (num_years p)).map (income_freelance p)

/-- `calculate_annual_income` (src/main.py lines 10-82).  The result is
wrapped in `Except ConfigurationError` so that claims about error raising
can be stated; the source contains no validation and no raise statement,
so every path produces `Except.ok`. -/
noncomputable def calculate_annual_income (p : Params) :
    Except ConfigurationError (List ℤ × List ℝ × List ℝ) :=
  Except.ok (years_array p, income_office_series p, income_freelance_series p)

/-- Running cumulative sums with carried accumulator, modelling
`np.cumsum` (lines 88-89). -/
def cumsum_from (acc : ℝ) : List ℝ → List ℝ
  | [] => []
  | x :: xs => (acc + x) :: cumsum_from (acc + x) xs

/-- `np.cumsum` on a list of reals. -/
def cumsum (xs : List ℝ) : List ℝ := cumsum_from 0 xs

/-- `calculate_cumulative_income` (src/main.py lines 84-90): cumulative
sums of both series; the `years` argument is accepted and unused. -/
def calculate_cumulative_income (years : List ℤ)
    (inc_office inc_freelance : List ℝ) : List ℝ × List ℝ :=
  (cumsum inc_office, cumsum inc_freelance)

/-- The spec's closed form for the office income (§5): the loop's
running salary written as `initial * (1 + rate) ^ i`, so that
`office[i] = initial * (1 + rate) ^ i * (12 + bonus_months)`.  Stated
from the spec's words, to be compared with the loop embedding. -/
def office_income_closed_form (p : Params) (i : ℕ) : ℝ :=
  p.office_initial_monthly_net_salary * (1 + p.office_raise_rate) ^ i *
    (12 + p.office_bonus_months)

/-- The default parameter table of `main()` (src/main.py lines 160-187),
restricted to the fields `calculate_annual_income` reads (plus
`deduction_rate_employee`). -/
noncomputable def default_params : Params where
  age_start := 22
  age_end := 60
  office_initial_monthly_net_salary := 200000
  office_bonus_months := 2
  office_raise_rate := 2 / 100
  freelance_learning_period_months := 6
  freelance_initial_hourly_wage := 1500
  freelance_target_hourly_wage := 8000
  freelance_target_reach_years := 5
  freelance_hourly_wage_growth_type := "quadratic"
  freelance_post_target_raise_rate := 1 / 100
  freelance_work_hours_per_day := 8
  freelance_work_days_per_month := 20
  freelance_expense_rate := 1 / 10
  deduction_rate_freelance := 25 / 100
  deduction_rate_employee := 2 / 10

/-- Parameters with `age_start > age_end` (everything else as in the
default table): input used to examine the claimed config rejection. -/
noncomputable def reversed_age_params : Params :=
  { default_params with age_start := 30, age_end := 20 }

/-- Parameters inside the domain stated by the non-negativity claim
(in particular `office_raise_rate` is a real, here `-2`), under which the
office salary turns negative in the second simulated year.  The learning
period of 24 months keeps both simulated years inside the freelance
learning phase. -/
noncomputable def negative_raise_params : Params where
  age_start := 0
  age_end := 1
  office_initial_monthly_net_salary := 100000
  office_bonus_months := 0
  office_raise_rate := -2
  freelance_learning_period_months := 24
  freelance_initial_hourly_wage := 1000
  freelance_target_hourly_wage := 2000
  freelance_target_reach_years := 3
  freelance_hourly_wage_growth_type := "quadratic"
  freelance_post_target_raise_rate := 0
  freelance_work_hours_per_day := 8
  freelance_work_days_per_month := 20
  freelance_expense_rate := 0
  deduction_rate_freelance := 0
  deduction_rate_employee := 0

/-- The default table with `freelance_target_reach_years = 0`: the
immediate-target edge case. -/
noncomputable def zero_target_params : Params :=
  { default_params with freelance_target_reach_years := 0 }

/-! ## Helper lemmas -/

theorem income_office_series_getElem (p : Params) (i : ℕ) (hi : i < num_years p) :
    (income_office_series p)[i]? = some (income_office p i) := by
  rw [income_office_series, List.getElem?_map, List.getElem?_range hi]; rfl

theorem income_freelance_series_getElem (p : Params) (i : ℕ) (hi : i < num_years p) :
    (income_freelance_series p)[i]? = some (income_freelance p i) := by
  rw [income_freelance_series, List.getElem?_map, List.getElem?_range hi]; rfl

theorem years_array_getElem (p : Params) (i : ℕ) (hi : i < num_years p) :
    (years_array p)[i]? = some (p.age_start + i) := by
  rw [years_array, List.getElem?_map, List.getElem?_range hi]; rfl

theorem years_array_length (p : Params) : (years_array p).length = num_years p := by
  rw [years_array, List.length_map, List.length_range]

theorem income_office_series_length (p : Params) :
    (income_office_series p).length = num_years p := by
  rw [income_office_series, List.length_map, List.length_range]

theorem income_freelance_series_length (p : Params) :
    (income_freelance_series p).length = num_years p := by
  rw [income_freelance_series, List.length_map, List.length_range]

theorem office_monthly_salary_congr (p q : Params)
    (hinit : p.office_initial_monthly_net_salary = q.office_initial_monthly_net_salary)
    (hrate : p.office_raise_rate = q.office_raise_rate) :
    ∀ i, office_monthly_salary p i = office_monthly_salary q i := by
  intro i
  induction i with
  | zero => exact hinit
  | succ n ih => rw [office_monthly_salary, office_monthly_salary, ih, hrate]

theorem office_monthly_salary_closed (p : Params) (i : ℕ) :
    office_monthly_salary p i =
      p.office_initial_monthly_net_salary * (1 + p.office_raise_rate) ^ i := by
  induction i with
  | zero => rw [office_monthly_salary, pow_zero, mul_one]
  | succ n ih => rw [office_monthly_salary, ih, pow_succ]; ring

theorem num_years_default : num_years default_params = 39 := by
  norm_num [num_years, default_params]
  rfl

theorem cumsum_from_length (xs : List ℝ) :
    ∀ acc : ℝ, (cumsum_from acc xs).length = xs.length := by
  induction xs with
  | nil => intro acc; rfl
  | cons x xs ih =>
    intro acc
    rw [cumsum_from, List.length_cons, List.length_cons, ih]

theorem cumsum_from_getElem (xs : List ℝ) :
    ∀ (acc : ℝ) (i : ℕ), i < xs.length →
      (cumsum_from acc xs)[i]? = some (acc + (xs.take (i + 1)).sum) := by
  induction xs with
  | nil => intro acc i hi; exact absurd hi (by simp)
  | cons x xs ih =>
    intro acc i hi
    cases i with
    | zero => simp [cumsum_from]
    | succ n =>
      have hn : n < xs.length := by simpa using hi
      calc (cumsum_from acc (x :: xs))[n + 1]?
          = (cumsum_from (acc + x) xs)[n]? := by rw [cumsum_from]; simp
        _ = some (acc + x + (xs.take (n + 1)).sum) := ih (acc + x) n hn
        _ = some (acc + ((x :: xs).take (n + 1 + 1)).sum) := by
            rw [List.take_succ_cons, List.sum_cons, add_assoc]

/-! ## Claim theorems -/

/-- C3: for `age_start ≤ age_end`, every office entry is
`monthly_salary[i] * (12 + office_bonus_months)` where the monthly salary
starts at `office_initial_monthly_net_salary` and is multiplied by
`(1 + office_raise_rate)` each year, and the office series does not
depend on `deduction_rate_employee`. -/
theorem C3_office_recurrence (p : Params) (h : p.age_start ≤ p.age_end) (i : ℕ)
    (hi : i < num_years p) :
    (income_office_series p)[i]? =
      some (office_monthly_salary p i * (12 + p.office_bonus_months)) ∧
    office_monthly_salary p 0 = p.office_initial_monthly_net_salary ∧
    office_monthly_salary p (i + 1) =
      office_monthly_salary p i * (1 + p.office_raise_rate) ∧
    ∀ d : ℝ, income_office_series { p with deduction_rate_employee := d } =
      income_office_series p := by
  refine ⟨income_office_series_getElem p i hi, rfl, rfl, fun d => ?_⟩
  simp only [income_office_series]
  exact List.map_congr_left fun a _ => by
    rw [income_office, income_office,
      office_monthly_salary_congr { p with deduction_rate_employee := d } p rfl rfl]

/-- C3 witness: under the default table (initial salary 200000, bonus
months 2, raise rate 0.02), `office[0] = 2800000` and
`office[1] = 2800000 * 1.02`. -/
theorem C3_office_recurrence_witness :
    default_params.age_start ≤ default_params.age_end ∧
    (income_office_series default_params)[0]? = some 2800000 ∧
    (income_office_series default_params)[1]? = some (2800000 * (102 / 100)) := by
  refine ⟨by norm_num [default_params], ?_, ?_⟩
  · rw [(C3_office_recurrence default_params (by norm_num [default_params]) 0
      (by rw [num_years_default]; norm_num)).1]
    norm_num [office_monthly_salary, default_params]
  · rw [(C3_office_recurrence default_params (by norm_num [default_params]) 1
      (by rw [num_years_default]; norm_num)).1]
    norm_num [office_monthly_salary, default_params]

/-- C7: `calculate_cumulative_income` is total, preserves the length of
each of the two series independently, each output entry `i` is the sum
of the input entries `0..i`, and empty inputs give empty outputs. -/
theorem C7_cumulative_income (years : List ℤ) (inc_office inc_freelance : List ℝ) :
    (calculate_cumulative_income years inc_office inc_freelance).1.length =
      inc_office.length ∧
    (calculate_cumulative_income years inc_office inc_freelance).2.length =
      inc_freelance.length ∧
    (∀ i : ℕ, i < inc_office.length →
      (calculate_cumulative_income years inc_office inc_freelance).1[i]? =
        some ((inc_office.take (i + 1)).sum)) ∧
    (∀ i : ℕ, i < inc_freelance.length →
      (calculate_cumulative_income years inc_office inc_freelance).2[i]? =
        some ((inc_freelance.take (i + 1)).sum)) ∧
    calculate_cumulative_income years [] [] = ([], []) := by
  refine ⟨cumsum_from_length inc_office 0, cumsum_from_length inc_freelance 0,
    fun i hi => ?_, fun i hi => ?_, rfl⟩
  · rw [calculate_cumulative_income]
    show (cumsum inc_office)[i]? = _
    rw [cumsum, cumsum_from_getElem inc_office 0 i hi, zero_add]
  · rw [calculate_cumulative_income]
    show (cumsum inc_freelance)[i]? = _
    rw [cumsum, cumsum_from_getElem inc_freelance 0 i hi, zero_add]

/-- C7 witness: on the input series `[100, 200, 0, 300]` the cumulative
series is `[100, 300, 300, 600]`. -/
theorem C7_cumulative_income_witness :
    (calculate_cumulative_income [] [100, 200, 0, 300] [100, 200, 0, 300]).1 =
      [100, 300, 300, 600] ∧
    (calculate_cumulative_income [] [100, 200, 0, 300] [100, 200, 0, 300]).2[3]? =
      some 600 := by
  constructor
  · show cumsum [100, 200, 0, 300] = [100, 300, 300, 600]
    norm_num [cumsum, cumsum_from]
  · rw [(C7_cumulative_income [] [100, 200, 0, 300] [100, 200, 0, 300]).2.2.2.1 3
      (by norm_num)]
    norm_num

/-- C8: for `age_start ≤ age_end`, the three outputs of
`calculate_annual_income` have the common length
`age_end - age_start + 1`, and the years output is the integer sequence
`age_start..age_end` inclusive. -/
theorem C8_length_invariant (p : Params) (h : p.age_start ≤ p.age_end) :
    (years_array p).length = (income_office_series p).length ∧
    (income_office_series p).length = (income_freelance_series p).length ∧
    ((years_array p).length : ℤ) = p.age_end - p.age_start + 1 ∧
    (calculate_annual_income p =
      Except.ok (years_array p, income_office_series p, income_freelance_series p)) ∧
    ∀ i : ℕ, i < (years_array p).length →
      (years_array p)[i]? = some (p.age_start + i) := by
  refine ⟨?_, ?_, ?_, rfl, fun i hi => ?_⟩
  · rw [years_array_length, income_office_series_length]
  · rw [income_office_series_length, income_freelance_series_length]
  · rw [years_array_length, num_years, Int.toNat_of_nonneg (by omega)]; ring
  · exact years_array_getElem p i (by rwa [years_array_length] at hi)

/-- C8 witness: the default table (ages 22..60) gives 39 entries and
`years[0] = 22`. -/
theorem C8_length_invariant_witness :
    default_params.age_start ≤ default_params.age_end ∧
    ((years_array default_params).length : ℤ) = 39 ∧
    (years_array default_params)[0]? = some 22 := by
  have h := C8_length_invariant default_params (by norm_num [default_params])
  refine ⟨by norm_num [default_params], ?_, ?_⟩
  · rw [h.2.2.1]; norm_num [default_params]
  · have h0 := h.2.2.2.2 0 (by rw [years_array_length, num_years_default]; norm_num)
    rw [h0]; norm_num [default_params]

/-- C9: the office income produced by the sequential salary recurrence
equals the closed form
`office_initial_monthly_net_salary * (1 + office_raise_rate) ^ i *
(12 + office_bonus_months)`. -/
theorem C9_office_closed_form (p : Params) (h : p.age_start ≤ p.age_end) (i : ℕ)
    (hi : i < num_years p) :
    (income_office_series p)[i]? = some (office_income_closed_form p i) := by
  rw [income_office_series_getElem p i hi, income_office,
    office_monthly_salary_closed, office_income_closed_form]

/-- C9 witness: under the default table,
`office[1] = 200000 * 1.02 * 14 = 2856000`, as the closed form states. -/
theorem C9_office_closed_form_witness :
    default_params.age_start ≤ default_params.age_end ∧
    office_income_closed_form default_params 1 = 2856000 ∧
    (income_office_series default_params)[1]? = some 2856000 := by
  have hc : office_income_closed_form default_params 1 = 2856000 := by
    norm_num [office_income_closed_form, default_params]
  refine ⟨by norm_num [default_params], hc, ?_⟩
  rw [C9_office_closed_form default_params (by norm_num [default_params]) 1
    (by rw [num_years_default]; norm_num), hc]

/-- C10: changing only `freelance_hourly_wage_growth_type` (to any
string, recognized or not) leaves the whole result of
`calculate_annual_income` unchanged: the discriminator is read but
influences nothing. -/
theorem C10_growth_type_noninterference (p : Params) (t : String) :
    calculate_annual_income { p with freelance_hourly_wage_growth_type := t } =
      calculate_annual_income p := by
  rw [calculate_annual_income, calculate_annual_income]
  have hoff : income_office_series { p with freelance_hourly_wage_growth_type := t } =
      income_office_series p := by
    simp only [income_office_series]
    exact List.map_congr_left fun a _ => by
      rw [income_office, income_office,
        office_monthly_salary_congr
          { p with freelance_hourly_wage_growth_type := t } p rfl rfl]
  rw [hoff]
  rfl

/-- C4: an index `i` is zeroed exactly when
`i < ceil(learning_period_months / 12)`; otherwise the freelance income
is computed from the fractional `work_years = i - learning_period_months/12`
(not reset to an integer), and with `learning_period_months = 0` the
zeroing guard never fires. -/
theorem C4_learning_period (p : Params) (h : p.age_start ≤ p.age_end) (i : ℕ)
    (hi : i < num_years p) :
    ((i : ℝ) < (⌈p.freelance_learning_period_months / 12⌉ : ℝ) →
      (income_freelance_series p)[i]? = some 0) ∧
    (¬ (i : ℝ) < (⌈p.freelance_learning_period_months / 12⌉ : ℝ) →
      (income_freelance_series p)[i]? = some
        (WageCurve.wage p ((i : ℝ) - p.freelance_learning_period_months / 12) *
            p.freelance_work_hours_per_day * p.freelance_work_days_per_month * 12 *
            (1 - p.freelance_expense_rate) * (1 - p.deduction_rate_freelance))) ∧
    (p.freelance_learning_period_months = 0 →
      ¬ (i : ℝ) < (⌈p.freelance_learning_period_months / 12⌉ : ℝ)) := by
  have hval := income_freelance_series_getElem p i hi
  refine ⟨fun hl => ?_, fun hl => ?_, fun h0 => ?_⟩
  · rw [hval]
    simp only [income_freelance]
    rw [if_pos hl]
  · rw [hval]
    simp only [income_freelance]
    rw [if_neg hl]
  · rw [h0]
    simp

/-- C4 witness: under the default table (`age_start = 22`,
`freelance_learning_period_months = 6`), `freelance[0] = 0`. -/
theorem C4_learning_period_witness :
    default_params.age_start ≤ default_params.age_end ∧
    default_params.freelance_learning_period_months = 6 ∧
    (income_freelance_series default_params)[0]? = some 0 := by
  have hceil : (⌈default_params.freelance_learning_period_months / 12⌉ : ℤ) = 1 := by
    rw [show default_params.freelance_learning_period_months = 6 from rfl,
      Int.ceil_eq_iff]
    norm_num
  refine ⟨by norm_num [default_params], rfl, ?_⟩
  exact (C4_learning_period default_params (by norm_num [default_params]) 0
    (by rw [num_years_default]; norm_num)).1 (by rw [hceil]; norm_num)

/-- C5: for `target_reach_years > 0`, at `work_years = target_reach_years`
the ramp formula and the post-target formula both yield exactly
`target_wage`, and so does `WageCurve.wage` itself: the wage curve is
continuous at the phase boundary. -/
theorem C5_ramp_continuity (p : Params) (h : 0 < p.freelance_target_reach_years) :
    p.freelance_initial_hourly_wage +
        (p.freelance_target_hourly_wage - p.freelance_initial_hourly_wage) *
          (p.freelance_target_reach_years / p.freelance_target_reach_years) ^ 2 =
      p.freelance_target_hourly_wage ∧
    p.freelance_target_hourly_wage *
        (1 + p.freelance_post_target_raise_rate) ^
          (p.freelance_target_reach_years - p.freelance_target_reach_years) =
      p.freelance_target_hourly_wage ∧
    WageCurve.wage p p.freelance_target_reach_years =
      p.freelance_target_hourly_wage := by
  have hT : p.freelance_target_reach_years ≠ 0 := ne_of_gt h
  refine ⟨?_, ?_, ?_⟩
  · rw [div_self hT, one_pow, mul_one]; ring
  · rw [sub_self, Real.rpow_zero, mul_one]
  · rw [WageCurve.wage, if_pos (le_refl _)]
    simp only [if_pos h]
    rw [div_self hT, one_pow, mul_one]; ring

/-- C5 witness: under the default table (`target_reach_years = 5`), the
wage at the phase boundary is exactly the target wage 8000. -/
theorem C5_ramp_continuity_witness :
    (0 : ℝ) < default_params.freelance_target_reach_years ∧
    WageCurve.wage default_params default_params.freelance_target_reach_years =
      8000 := by
  have h : (0 : ℝ) < default_params.freelance_target_reach_years := by
    norm_num [default_params]
  exact ⟨h, (C5_ramp_continuity default_params h).2.2⟩

/-- C6: with `target_reach_years = 0`, the wage computation at
`work_years = 0` takes the explicit `ratio = 1` branch (the division by
`target_reach_years` is behind the false `0 < target_reach_years` guard)
and returns exactly `target_wage`.  Note that without that branch the
value would instead be `initial_wage` (the embedding's `(0/0)^2 = 0`),
so this really exercises the branch. -/
theorem C6_zero_target_reach (p : Params) (h : p.freelance_target_reach_years = 0) :
    (if (0 : ℝ) < p.freelance_target_reach_years then
        ((0 : ℝ) / p.freelance_target_reach_years) ^ 2 else 1) = 1 ∧
    WageCurve.wage p 0 = p.freelance_target_hourly_wage := by
  constructor
  · rw [h]; norm_num
  · rw [WageCurve.wage, h]
    norm_num

/-- C6 witness: the default table with `target_reach_years = 0` gives
wage 8000 at `work_years = 0`. -/
theorem C6_zero_target_reach_witness :
    zero_target_params.freelance_target_reach_years = 0 ∧
    WageCurve.wage zero_target_params 0 = 8000 := by
  refine ⟨rfl, ?_⟩
  exact (C6_zero_target_reach zero_target_params rfl).2

theorem office_monthly_salary_nonneg (p : Params)
    (h1 : 0 ≤ p.office_initial_monthly_net_salary) (h3 : -1 ≤ p.office_raise_rate) :
    ∀ i, 0 ≤ office_monthly_salary p i := by
  intro i
  induction i with
  | zero => exact h1
  | succ n ih => exact mul_nonneg ih (by linarith)

theorem wage_nonneg (p : Params)
    (h5 : 0 ≤ p.freelance_initial_hourly_wage)
    (h6 : 0 ≤ p.freelance_target_hourly_wage)
    (h8 : -1 ≤ p.freelance_post_target_raise_rate)
    (w : ℝ) (hw : 0 ≤ w) : 0 ≤ WageCurve.wage p w := by
  simp only [WageCurve.wage]
  by_cases hle : w ≤ p.freelance_target_reach_years
  · rw [if_pos hle]
    by_cases hT : 0 < p.freelance_target_reach_years
    · rw [if_pos hT]
      have hu0 : 0 ≤ w / p.freelance_target_reach_years := div_nonneg hw (le_of_lt hT)
      have hu1 : w / p.freelance_target_reach_years ≤ 1 := by
        rw [div_le_one hT]; exact hle
      have hsq1 : (w / p.freelance_target_reach_years) ^ 2 ≤ 1 := by nlinarith
      have hsq0 : 0 ≤ (w / p.freelance_target_reach_years) ^ 2 := sq_nonneg _
      nlinarith [mul_nonneg h5 (sub_nonneg.mpr hsq1), mul_nonneg h6 hsq0]
    · rw [if_neg hT]
      nlinarith
  · rw [if_neg hle]
    exact mul_nonneg h6 (Real.rpow_nonneg (by linarith) _)

theorem income_freelance_nonneg (p : Params)
    (h5 : 0 ≤ p.freelance_initial_hourly_wage)
    (h6 : 0 ≤ p.freelance_target_hourly_wage)
    (h8 : -1 ≤ p.freelance_post_target_raise_rate)
    (h9 : 0 ≤ p.freelance_work_hours_per_day)
    (h10 : 0 ≤ p.freelance_work_days_per_month)
    (h12 : p.freelance_expense_rate ≤ 1)
    (h14 : p.deduction_rate_freelance ≤ 1)
    (i : ℕ) : 0 ≤ income_freelance p i := by
  simp only [income_freelance]
  by_cases hl : (i : ℝ) < (⌈p.freelance_learning_period_months / 12⌉ : ℝ)
  · rw [if_pos hl]
  · rw [if_neg hl]
    have hw : 0 ≤ (i : ℝ) - p.freelance_learning_period_months / 12 := by
      have ha : p.freelance_learning_period_months / 12 ≤
          (⌈p.freelance_learning_period_months / 12⌉ : ℝ) := Int.le_ceil _
      have hb : ((⌈p.freelance_learning_period_months / 12⌉ : ℤ) : ℝ) ≤ i :=
        le_of_not_lt hl
      linarith
    have hwage := wage_nonneg p h5 h6 h8 _ hw
    exact mul_nonneg (mul_nonneg (mul_nonneg (mul_nonneg (mul_nonneg hwage h9) h10)
      (by norm_num)) (by linarith)) (by linarith)

/-- C2 (amended): in the claim's stated domain strengthened by
`office_raise_rate ≥ -1` and `freelance_post_target_raise_rate ≥ -1`,
every element of both output series is non-negative.  Without those two
bounds the claim is false (see the counterexample). -/
theorem C2_nonneg_amended (p : Params)
    (h1 : 0 < p.office_initial_monthly_net_salary)
    (h2 : 0 ≤ p.office_bonus_months)
    (h3 : -1 ≤ p.office_raise_rate)
    (h4 : 0 ≤ p.freelance_learning_period_months)
    (h5 : 0 ≤ p.freelance_initial_hourly_wage)
    (h6 : 0 ≤ p.freelance_target_hourly_wage)
    (h7 : 0 ≤ p.freelance_target_reach_years)
    (h8 : -1 ≤ p.freelance_post_target_raise_rate)
    (h9 : 0 ≤ p.freelance_work_hours_per_day)
    (h10 : 0 ≤ p.freelance_work_days_per_month)
    (h11 : 0 ≤ p.freelance_expense_rate)
    (h12 : p.freelance_expense_rate < 1)
    (h13 : 0 ≤ p.deduction_rate_freelance)
    (h14 : p.deduction_rate_freelance < 1) :
    (∀ x ∈ income_office_series p, 0 ≤ x) ∧
    (∀ x ∈ income_freelance_series p, 0 ≤ x) := by
  constructor
  · intro x hx
    rw [income_office_series, List.mem_map] at hx
    obtain ⟨i, _, rfl⟩ := hx
    exact mul_nonneg (office_monthly_salary_nonneg p (le_of_lt h1) h3 i) (by linarith)
  · intro x hx
    rw [income_freelance_series, List.mem_map] at hx
    obtain ⟨i, _, rfl⟩ := hx
    exact income_freelance_nonneg p h5 h6 h8 h9 h10 (le_of_lt h12) (le_of_lt h14) i

/-- C2 witness: the default table satisfies the amended domain and both
of its series are non-negative throughout. -/
theorem C2_nonneg_amended_witness :
    0 < default_params.office_initial_monthly_net_salary ∧
    -1 ≤ default_params.office_raise_rate ∧
    (∀ x ∈ income_office_series default_params, 0 ≤ x) ∧
    (∀ x ∈ income_freelance_series default_params, 0 ≤ x) := by
  have h := C2_nonneg_amended default_params (by norm_num [default_params])
    (by norm_num [default_params]) (by norm_num [default_params])
    (by norm_num [default_params]) (by norm_num [default_params])
    (by norm_num [default_params]) (by norm_num [default_params])
    (by norm_num [default_params]) (by norm_num [default_params])
    (by norm_num [default_params]) (by norm_num [default_params])
    (by norm_num [default_params]) (by norm_num [default_params])
    (by norm_num [default_params])
  exact ⟨by norm_num [default_params], by norm_num [default_params], h.1, h.2⟩

/-- C2 counterexample: `negative_raise_params` satisfies every constraint
of the claim's stated domain (`office_raise_rate = -2` is a real, which
the claim allows), yet the office series is `[1200000, -1200000]`: its
second element is negative. -/
theorem C2_counterexample :
    0 < negative_raise_params.office_initial_monthly_net_salary ∧
    0 ≤ negative_raise_params.office_bonus_months ∧
    0 ≤ negative_raise_params.freelance_learning_period_months ∧
    0 ≤ negative_raise_params.freelance_initial_hourly_wage ∧
    0 ≤ negative_raise_params.freelance_target_hourly_wage ∧
    0 ≤ negative_raise_params.freelance_target_reach_years ∧
    0 ≤ negative_raise_params.freelance_work_hours_per_day ∧
    0 ≤ negative_raise_params.freelance_work_days_per_month ∧
    0 ≤ negative_raise_params.freelance_expense_rate ∧
    negative_raise_params.freelance_expense_rate < 1 ∧
    0 ≤ negative_raise_params.deduction_rate_freelance ∧
    negative_raise_params.deduction_rate_freelance < 1 ∧
    income_office_series negative_raise_params = [1200000, -1200000] ∧
    ¬ ∀ x ∈ income_office_series negative_raise_params, 0 ≤ x := by
  have hn : num_years negative_raise_params = 2 := by
    norm_num [num_years, negative_raise_params]
    rfl
  have hlist : income_office_series negative_raise_params = [1200000, -1200000] := by
    rw [income_office_series, hn]
    norm_num [List.range_succ, income_office, office_monthly_salary,
      negative_raise_params]
  refine ⟨by norm_num [negative_raise_params], by norm_num [negative_raise_params],
    by norm_num [negative_raise_params], by norm_num [negative_raise_params],
    by norm_num [negative_raise_params], by norm_num [negative_raise_params],
    by norm_num [negative_raise_params], by norm_num [negative_raise_params],
    by norm_num [negative_raise_params], by norm_num [negative_raise_params],
    by norm_num [negative_raise_params], by norm_num [negative_raise_params],
    hlist, ?_⟩
  intro hall
  have := hall (-1200000) (by rw [hlist]; simp)
  linarith

/-- C1 counterexample: `reversed_age_params` has `age_start > age_end`,
but `calculate_annual_income` does not raise anything there — no
validation exists in the source — so the claimed universal rejection is
false. -/
theorem C1_counterexample :
    ¬ (∀ p : Params,
        (p.age_end < p.age_start ∨ p.freelance_target_reach_years < 0 ∨
          p.freelance_hourly_wage_growth_type ≠ "quadratic") →
        ∃ e : ConfigurationError, calculate_annual_income p = Except.error e) := by
  intro hcl
  obtain ⟨e, he⟩ := hcl reversed_age_params
    (Or.inl (by norm_num [reversed_age_params, default_params]))
  simp [calculate_annual_income] at he

/-- C1 (amended): `calculate_annual_income` performs no validation and
never raises: it returns a normal result on every input, and with
`age_start > age_end` that result is the three empty series. -/
theorem C1_no_validation (p : Params) :
    (∃ r, calculate_annual_income p = Except.ok r) ∧
    (p.age_end < p.age_start → calculate_annual_income p = Except.ok ([], [], [])) := by
  refine ⟨⟨_, rfl⟩, fun h => ?_⟩
  have hn : num_years p = 0 := by rw [num_years]; omega
  rw [calculate_annual_income, years_array, income_office_series,
    income_freelance_series, hn]
  rfl

/-- C1 witness: with ages reversed (30 > 20) the call returns
`Except.ok ([], [], [])`. -/
theorem C1_no_validation_witness :
    reversed_age_params.age_end < reversed_age_params.age_start ∧
    calculate_annual_income reversed_age_params = Except.ok ([], [], []) := by
  have h : reversed_age_params.age_end < reversed_age_params.age_start := by
    norm_num [reversed_age_params, default_params]
  exact ⟨h, (C1_no_validation reversed_age_params).2 h⟩

end SkillBoostSim
